import Mathlib

/-!
Shallow embedding of `main.py` from the Wilayah-Indonesia scraper.

The program has two classes:
* `GetSession` — CSRF-token lifecycle plus a retrying request primitive
  (`refresh_token`, `check_token_expiry`, `make_request`);
* `GetData` — option-list parsing (`parse_options`) and the four-level
  crawl (`scrape_all`) that assembles the result document.

Network effects are abstracted into explicit environments: HTTP responses
are given by a function from attempt index to a response value, token
refresh outcomes by a function from refresh-call index to a Bool, and the
four per-level fetches of the crawl by functions returning
`Option (List (String × String))` (`none` models the corresponding
`get_*` helper raising after `make_request` exhausts its retries).
Wall-clock time advances only at the explicit `time.sleep` calls, by the
number of seconds slept.
-/

/-- Session state: `last_token_refresh` (issue time of the current CSRF
token, `none` before any successful refresh) and the current clock. -/
structure SessState where
  lastRefresh : Option Nat
  now : Nat
deriving Repr, DecidableEq

/-- `token_lifetime = 3500` from `GetSession.__init__`. -/
def token_lifetime : Nat := 3500

/-- `GetSession.check_token_expiry`: true when no token was ever issued or
the elapsed time since issue is at least the lifetime. -/
def check_token_expiry (s : SessState) : Bool :=
  match s.lastRefresh with
  | none => true
  | some t => decide (token_lifetime ≤ s.now - t)

/-- Outcome of one HTTP attempt inside `make_request`: a response with a
status code and body, a `requests.exceptions.Timeout`, or another
transport exception. -/
inductive HttpResp where
  | html (status : Nat) (body : String)
  | timeoutExn
  | connExn
deriving Repr, DecidableEq

/-- `time.sleep d` advances the clock by `d` seconds. -/
def advance (s : SessState) (d : Nat) : SessState :=
  { s with now := s.now + d }

/-- A successful `refresh_token` stores the current time as the token
issue time; a failed one leaves the state unchanged. -/
def applyRefresh (s : SessState) (ok : Bool) : SessState :=
  if ok then { s with lastRefresh := some s.now } else s

/-- The backoff `if attempt < retries - 1: time.sleep(2 ** attempt)` at
the bottom of the retry loop; `rem` is the number of attempts remaining
after the current one. -/
def backoff (s : SessState) (rem attempt : Nat) : SessState :=
  if 0 < rem then advance s (2 ^ attempt) else s

instance {ε α : Type} [DecidableEq ε] [DecidableEq α] :
    DecidableEq (Except ε α) := fun x y =>
  match x, y with
  | Except.ok a, Except.ok b =>
    if h : a = b then Decidable.isTrue (congrArg Except.ok h)
    else Decidable.isFalse (fun hh => h (Except.ok.inj hh))
  | Except.error a, Except.error b =>
    if h : a = b then Decidable.isTrue (congrArg Except.error h)
    else Decidable.isFalse (fun hh => h (Except.error.inj hh))
  | Except.ok _, Except.error _ => Decidable.isFalse (fun hh => Except.noConfusion hh)
  | Except.error _, Except.ok _ => Decidable.isFalse (fun hh => Except.noConfusion hh)

/-- What one call of `make_request` did. `result`: `.ok (some body)` for a
200, `.ok none` for the `return None` paths, `.error ()` for a raised
exception. `refreshes` counts `refresh_token` invocations,
`requestsSent` the HTTP requests issued by the loop, `sentWhileExpired`
whether some request was sent while `check_token_expiry` held, and
`firstSentExpired` the expiry status at the first request (if any). -/
structure ReqLog where
  result : Except Unit (Option String)
  refreshes : Nat
  requestsSent : Nat
  sentWhileExpired : Bool
  firstSentExpired : Option Bool
  finalState : SessState
deriving Repr, DecidableEq

/-- The `for attempt in range(retries)` loop of `GetSession.make_request`
(lines 70-113). `resp i` is the response to the request of attempt `i`,
`refreshOk j` the outcome of the `j`-th `refresh_token` call of this
`make_request` call. `rem` is the number of attempts left, `attempt` the
python loop index, `rc`/`sent`/`se`/`fse` the accumulated log fields. -/
def requestLoop (resp : Nat → HttpResp) (refreshOk : Nat → Bool) :
    Nat → Nat → SessState → Nat → Nat → Bool → Option Bool → ReqLog
  | 0, _, s, rc, sent, se, fse => ⟨Except.ok none, rc, sent, se, fse, s⟩
  | rem + 1, attempt, s, rc, sent, se, fse =>
    let expNow := check_token_expiry s
    let sent1 := sent + 1
    let se1 := se || expNow
    let fse1 := match fse with
      | none => some expNow
      | some b => some b
    match resp attempt with
    | HttpResp.html code body =>
      if code = 200 then ⟨Except.ok (some body), rc, sent1, se1, fse1, s⟩
      else if code = 419 then
        let ok := refreshOk rc
        if ok then
          requestLoop resp refreshOk rem (attempt + 1)
            (backoff (applyRefresh s true) rem attempt) (rc + 1) sent1 se1 fse1
        else
          requestLoop resp refreshOk rem (attempt + 1) s (rc + 1) sent1 se1 fse1
      else if code = 429 then
        requestLoop resp refreshOk rem (attempt + 1) (advance s 10) rc sent1 se1 fse1
      else
        requestLoop resp refreshOk rem (attempt + 1) (backoff s rem attempt) rc sent1 se1 fse1
    | HttpResp.timeoutExn =>
      if rem = 0 then ⟨Except.error (), rc, sent1, se1, fse1, s⟩
      else requestLoop resp refreshOk rem (attempt + 1) (advance s 5) rc sent1 se1 fse1
    | HttpResp.connExn =>
      if rem = 0 then ⟨Except.error (), rc, sent1, se1, fse1, s⟩
      else requestLoop resp refreshOk rem (attempt + 1) (backoff s rem attempt) rc sent1 se1 fse1

/-- `GetSession.make_request`: the expiry pre-check
`if self.check_token_expiry() and not self.refresh_token(): return None`
followed by the retry loop. -/
def make_request (resp : Nat → HttpResp) (refreshOk : Nat → Bool)
    (retries : Nat) (s : SessState) : ReqLog :=
  if check_token_expiry s then
    if refreshOk 0 then
      requestLoop resp refreshOk retries 0 (applyRefresh s true) 1 0 false none
    else ⟨Except.ok none, 1, 0, false, none, s⟩
  else
    requestLoop resp refreshOk retries 0 s 0 0 false none

/-- `refresh_token`, reduced to the token-extraction outcome: the landing
page either has no `meta[name=csrf-token]` element (`none`), an element
without a usable content (`some none`), an element with empty content
(`some (some "")`), or a real token. Returns the python function's
boolean result. -/
def refreshOutcome (landing : Option (Option String)) : Bool :=
  match landing with
  | none => false
  | some none => false
  | some (some tok) => if tok = "" then false else true

/-- `GetSession.__init__` at time `t`: sets up the state and calls
`refresh_token`, ignoring its boolean result (line 16 of `main.py`);
construction always completes and yields a session state. -/
def sessionInit (landing : Option (Option String)) (t : Nat) : SessState :=
  { lastRefresh := if refreshOutcome landing then some t else none, now := t }

/-- The headers installed by a successful `refresh_token` (lines 44-48). -/
def sessionHeaders (tok : String) : List (String × String) :=
  [("X-CSRF-TOKEN", tok),
   ("Content-Type", "application/x-www-form-urlencoded"),
   ("User-Agent", "Mozilla/5.0 (Windows NT 10.0; Win64; x64) AppleWebKit/537.36 (KHTML, like Gecko) Chrome/120.0.0.0 Safari/537.36")]

/-- HTTP method actually used by `make_request`. -/
inductive HttpMethod where
  | post
  | get
deriving Repr, DecidableEq

/-- The request `make_request` issues: method, URL, form data, timeout. -/
structure RequestSpec where
  method : HttpMethod
  url : String
  formData : Option (List (String × String))
  timeout : Nat
deriving Repr, DecidableEq

/-- `base_url` from `GetSession.__init__`. -/
def base_url : String := "https://cekbansos.kemensos.go.id"

/-- Python `str.upper()` restricted to its behavior on the ASCII method
names used here. -/
def strUpper (s : String) : String :=
  String.mk (s.data.map Char.toUpper)

/-- How `make_request` builds the outbound request (lines 72-82): POST
exactly when `method.upper() == 'POST'`, to `base_url/endpoint`, with the
`data` argument as form body and a 15 second timeout. -/
def buildRequest (endpoint : String) (method : String)
    (formData : Option (List (String × String))) : RequestSpec :=
  { method := if strUpper method = "POST" then HttpMethod.post else HttpMethod.get
    url := base_url ++ "/" ++ endpoint
    formData := formData
    timeout := 15 }

/-- The request issued by `GetData.get_provinces`:
`make_request('provinsi')` with the default `method='POST'`, `data=None`. -/
def provincesRequest : RequestSpec :=
  buildRequest "provinsi" "POST" none

/-- The request issued by `GetData.get_cities`. -/
def citiesRequest (provCode : String) : RequestSpec :=
  buildRequest "kabupaten" "POST" (some [("kdprop", provCode)])

/-- The request issued by `GetData.get_districts`. -/
def districtsRequest (provCode cityCode : String) : RequestSpec :=
  buildRequest "kecamatan" "POST" (some [("kdprop", provCode), ("kdkab", cityCode)])

/-- The request issued by `GetData.get_villages`. -/
def villagesRequest (provCode cityCode distCode : String) : RequestSpec :=
  buildRequest "desa" "POST"
    (some [("kdprop", provCode), ("kdkab", cityCode), ("kdkec", distCode)])

/-! ### Option parsing (`GetData.parse_options`) -/

/-- Python dict assignment `options[value] = text`: overwrite in place if
the key exists, else append (preserving first-insertion order). -/
def dictInsert (m : List (String × String)) (k v : String) :
    List (String × String) :=
  if m.any (fun kv => kv.1 = k) then
    m.map (fun kv => if kv.1 = k then (k, v) else kv)
  else m ++ [(k, v)]

/-- Python `value.startswith(p)`: the code-point sequence of `p` is a
leading segment of that of `s`. -/
def startswith (s p : String) : Bool :=
  p.data.isPrefixOf s.data

/-- Python `str.strip()`: drop leading and trailing whitespace. -/
def pyStrip (s : String) : String :=
  String.mk (((s.data.dropWhile Char.isWhitespace).reverse.dropWhile
    Char.isWhitespace).reverse)

/-- One iteration of the `for option in soup.find_all('option')` loop:
an option element is its `value` attribute (`none` when absent) and its
text. `if value and value != '0' and not value.startswith('===')`. -/
def parseStep (m : List (String × String)) (opt : Option String × String) :
    List (String × String) :=
  match opt.1 with
  | none => m
  | some v =>
    if v ≠ "" ∧ v ≠ "0" ∧ startswith v "===" = false then
      dictInsert m v (pyStrip opt.2)
    else m

/-- The loop of `parse_options` over the option elements. -/
def parseAux (m : List (String × String)) :
    List (Option String × String) → List (String × String)
  | [] => m
  | opt :: rest => parseAux (parseStep m opt) rest

/-- `GetData.parse_options`, with the HTML abstracted to the list of
option elements BeautifulSoup extracts from it. -/
def parse_options (opts : List (Option String × String)) :
    List (String × String) :=
  parseAux [] opts

/-! ### The crawl (`GetData.scrape_all`) -/

/-- Leaf node of the hierarchy. -/
structure VillageNode where
  code : String
  name : String
deriving Repr, DecidableEq

/-- District node: `district_data` dict of `scrape_all`. -/
structure DistrictNode where
  code : String
  name : String
  total_villages : Nat
  villages : List VillageNode
deriving Repr, DecidableEq

/-- City node: `city_data` dict of `scrape_all`. -/
structure CityNode where
  code : String
  name : String
  total_districts : Nat
  districts : List DistrictNode
deriving Repr, DecidableEq

/-- Province node: `province_data` dict of `scrape_all`. -/
structure ProvinceNode where
  code : String
  name : String
  total_cities_regencies : Nat
  cities : List CityNode
deriving Repr, DecidableEq

/-- The `statistics` block of the result metadata. -/
structure Statistics where
  total_provinces : Nat
  total_cities_regencies : Nat
  total_districts : Nat
  total_villages : Nat
deriving Repr, DecidableEq

/-- The result document: statistics plus the `hierarchy.provinces` list. -/
structure ResultDocument where
  statistics : Statistics
  provinces : List ProvinceNode
deriving Repr, DecidableEq

/-- The crawl's view of the network: each `get_*` helper either returns a
code→label association list (in insertion order) or raises (`none`,
covering `make_request` returning `None` after its retries). -/
structure FetchEnv where
  provinces : Option (List (String × String))
  cities : String → Option (List (String × String))
  districts : String → String → Option (List (String × String))
  villages : String → String → String → Option (List (String × String))

/-- The inner `for dist_code, dist_name in districts.items()` loop of
`scrape_all` (lines 220-243): returns the district nodes appended to
`city_data["districts"]` and the total added to
`statistics.total_villages`. A failed villages fetch skips the district
node entirely (`continue` before the append). -/
def crawlDistricts (env : FetchEnv) (provCode cityCode : String) :
    List (String × String) → List DistrictNode × Nat
  | [] => ([], 0)
  | d :: rest =>
    match env.villages provCode cityCode d.1 with
    | none => crawlDistricts env provCode cityCode rest
    | some vs =>
      let node : DistrictNode :=
        { code := d.1, name := d.2, total_villages := vs.length
          villages := vs.map (fun v => { code := v.1, name := v.2 }) }
      let r := crawlDistricts env provCode cityCode rest
      (node :: r.1, vs.length + r.2)

/-- The `for city_code, city_name in cities.items()` loop (lines
203-246): returns the city nodes appended to `province_data["cities"]`,
the total added to `statistics.total_districts`, and the total added to
`statistics.total_villages`. A failed districts fetch skips the city node
(`continue` before the append); `total_districts` is bumped by
`len(districts)` as soon as the fetch succeeds, before any village
fetch. -/
def crawlCities (env : FetchEnv) (provCode : String) :
    List (String × String) → List CityNode × Nat × Nat
  | [] => ([], 0, 0)
  | c :: rest =>
    match env.districts provCode c.1 with
    | none => crawlCities env provCode rest
    | some ds =>
      let dr := crawlDistricts env provCode c.1 ds
      let node : CityNode :=
        { code := c.1, name := c.2, total_districts := ds.length
          districts := dr.1 }
      let r := crawlCities env provCode rest
      (node :: r.1, ds.length + r.2.1, dr.2 + r.2.2)

/-- The outer `for prov_code, prov_name in provinces.items()` loop (lines
184-250): returns the province nodes and the totals added to the
cities/districts/villages statistics. A failed cities fetch skips the
whole province (`continue` at line 198); `total_cities/regencies` is
bumped by `len(cities)` right after the fetch succeeds. -/
def crawlProvinces (env : FetchEnv) :
    List (String × String) → List ProvinceNode × Nat × Nat × Nat
  | [] => ([], 0, 0, 0)
  | p :: rest =>
    match env.cities p.1 with
    | none => crawlProvinces env rest
    | some cs =>
      let cr := crawlCities env p.1 cs
      let node : ProvinceNode :=
        { code := p.1, name := p.2, total_cities_regencies := cs.length
          cities := cr.1 }
      let r := crawlProvinces env rest
      (node :: r.1, cs.length + r.2.1, cr.2.1 + r.2.2.1, cr.2.2 + r.2.2.2)

/-- `GetData.scrape_all`: a failing provinces fetch makes `get_provinces`
raise and the exception propagates (lines 254-256 log and re-raise);
otherwise the three nested loops run and the result document is returned
with `total_provinces = len(provinces)`. -/
def scrape_all (env : FetchEnv) : Except Unit ResultDocument :=
  match env.provinces with
  | none => Except.error ()
  | some ps =>
    let r := crawlProvinces env ps
    Except.ok
      { statistics :=
          { total_provinces := ps.length
            total_cities_regencies := r.2.1
            total_districts := r.2.2.1
            total_villages := r.2.2.2 }
        provinces := r.1 }

/-- Number of city nodes present in the output hierarchy. -/
def cityNodeCount (d : ResultDocument) : Nat :=
  (d.provinces.map (fun p => p.cities.length)).sum

/-- Number of district nodes present in the output hierarchy. -/
def districtNodeCount (d : ResultDocument) : Nat :=
  (d.provinces.map (fun p =>
    (p.cities.map (fun c => c.districts.length)).sum)).sum

/-- Number of village nodes present in the output hierarchy. -/
def villageNodeCount (d : ResultDocument) : Nat :=
  (d.provinces.map (fun p =>
    (p.cities.map (fun c =>
      (c.districts.map (fun dd => dd.villages.length)).sum)).sum)).sum

/-- The per-level counters against the nodes actually present, for the
three counters below the province level. -/
def countsMatch (d : ResultDocument) : Prop :=
  d.statistics.total_cities_regencies = cityNodeCount d ∧
  d.statistics.total_districts = districtNodeCount d ∧
  d.statistics.total_villages = villageNodeCount d

instance (d : ResultDocument) : Decidable (countsMatch d) := by
  unfold countsMatch; infer_instance

/-- The fixed scenario of the end-to-end claim: one province `Aceh`, one
city `Kab. Aceh` under it, an empty-but-successful districts fetch. -/
def envC1 : FetchEnv :=
  { provinces := some [("11", "Aceh")]
    cities := fun p => if p = "11" then some [("1101", "Kab. Aceh")] else none
    districts := fun p c =>
      if p = "11" ∧ c = "1101" then some [] else none
    villages := fun _ _ _ => none }

/-- The document the crawl produces on `envC1`. -/
def docC1 : ResultDocument :=
  { statistics :=
      { total_provinces := 1, total_cities_regencies := 1
        total_districts := 0, total_villages := 0 }
    provinces :=
      [{ code := "11", name := "Aceh", total_cities_regencies := 1
         cities := [{ code := "1101", name := "Kab. Aceh"
                      total_districts := 0, districts := [] }] }] }

/-- `r` is not a 200 response (the only outcome `make_request` returns a
body for). -/
def notSuccess (r : HttpResp) : Prop :=
  ∀ b, r ≠ HttpResp.html 200 b

/-- `r` is a transport-level failure (timeout or connection error). -/
def isTransport (r : HttpResp) : Prop :=
  r = HttpResp.timeoutExn ∨ r = HttpResp.connExn

/-- `r` is a non-transport failure: an HTTP response with a non-200
status. -/
def nonTransportFail (r : HttpResp) : Prop :=
  ∃ c b, r = HttpResp.html c b ∧ c ≠ 200

/-- A session whose token was just issued. -/
def sFresh : SessState := { lastRefresh := some 0, now := 0 }

/-- A session that never obtained a token. -/
def sNoToken : SessState := { lastRefresh := none, now := 0 }

/-- A session whose token was issued at time 0, observed 5 seconds before
the 3500-second lifetime runs out. -/
def sNearExpiry : SessState := { lastRefresh := some 0, now := 3495 }

/-- A server that answers 419 to every request. -/
def resp419 : Nat → HttpResp := fun _ => HttpResp.html 419 "expired"

/-- A server that answers 429 to every request. -/
def resp429 : Nat → HttpResp := fun _ => HttpResp.html 429 "busy"

/-- A server on which every request times out. -/
def respTimeout : Nat → HttpResp := fun _ => HttpResp.timeoutExn

/-- A server that rate-limits the first request (429, which sleeps 10
seconds) and answers 200 afterwards. -/
def respRateThenOk : Nat → HttpResp :=
  fun i => if i = 0 then HttpResp.html 429 "busy" else HttpResp.html 200 "ok"

/-- Token refresh always succeeds. -/
def refAlways : Nat → Bool := fun _ => true

/-- Token refresh always fails. -/
def refNever : Nat → Bool := fun _ => false

/-- A crawl environment whose provinces fetch fails. -/
def envNone : FetchEnv :=
  { provinces := none
    cities := fun _ => none
    districts := fun _ _ => none
    villages := fun _ _ _ => none }

/-- One province with one city whose districts fetch fails: the city is
counted into `total_cities/regencies` at discovery but its node is
dropped from the hierarchy. -/
def envC3 : FetchEnv :=
  { provinces := some [("11", "Aceh")]
    cities := fun p => if p = "11" then some [("1101", "Kab. Aceh")] else none
    districts := fun _ _ => none
    villages := fun _ _ _ => none }

/-- The document the crawl produces on `envC3`: the cities counter says 1
while the only province node holds no city node. -/
def docC3 : ResultDocument :=
  { statistics :=
      { total_provinces := 1, total_cities_regencies := 1
        total_districts := 0, total_villages := 0 }
    provinces :=
      [{ code := "11", name := "Aceh", total_cities_regencies := 1
         cities := [] }] }

/-- C1: on the fixed scenario (provinces `{"11": "Aceh"}`, cities of
`"11"` = `{"1101": "Kab. Aceh"}`, districts of `"1101"` an empty map),
`scrape_all` returns statistics 1/1/0/0 and one province node `Aceh`
holding one city node `Kab. Aceh` with empty districts. -/
theorem scrape_all_end_to_end : scrape_all envC1 = Except.ok docC1 := by
  decide

/-- C4 counterexample: with a fresh token, every response 419 and every
refresh succeeding, a `make_request` call with `retries = 3` performs
three token refreshes (not at most one), sends three requests (each 419
consumed a slot of the attempt budget), and returns `None`. -/
theorem make_request_419_cex :
    (make_request resp419 refAlways 3 sFresh).refreshes = 3 ∧
    (make_request resp419 refAlways 3 sFresh).requestsSent = 3 ∧
    (make_request resp419 refAlways 3 sFresh).result = Except.ok none := by
  decide

/-- C6 counterexample: a token with 5 seconds of lifetime left passes the
single expiry check at the top of `make_request`; the first attempt is
rate-limited (429) and sleeps 10 seconds, after which the second attempt
is sent with an expired token — the expiry check is not repeated inside
the retry loop. -/
theorem make_request_expired_send_cex :
    (make_request respRateThenOk refNever 3 sNearExpiry).sentWhileExpired = true ∧
    (make_request respRateThenOk refNever 3 sNearExpiry).result
      = Except.ok (some "ok") := by
  decide

/-- C7 counterexample: with no csrf-token meta element on the landing
page, `GetSession.__init__` still completes — `refresh_token` returns
`False` and line 16 ignores it — yielding a usable session with no token;
a later `make_request` on it returns `None` (after a failing pre-request
refresh) without sending anything, rather than any startup `AuthError`. -/
theorem sessionInit_no_token_cex :
    sessionInit none 0 = { lastRefresh := none, now := 0 } ∧
    (make_request respTimeout refNever 3 (sessionInit none 0)).result
      = Except.ok none ∧
    (make_request respTimeout refNever 3 (sessionInit none 0)).requestsSent = 0 := by
  decide

/-- C7 amended: when the landing page yields no usable token,
construction still completes with `last_token_refresh` unset, and any
subsequent `make_request` whose refresh also fails returns `None` without
sending a request — the missing token surfaces at fetch time, not as a
startup error. -/
theorem sessionInit_no_token (landing : Option (Option String)) (t : Nat)
    (resp : Nat → HttpResp) (refreshOk : Nat → Bool) (retries : Nat)
    (h : refreshOutcome landing = false) (hok : refreshOk 0 = false) :
    (sessionInit landing t).lastRefresh = none ∧
    (make_request resp refreshOk retries (sessionInit landing t)).result
      = Except.ok none ∧
    (make_request resp refreshOk retries (sessionInit landing t)).requestsSent
      = 0 := by
  have hlr : (sessionInit landing t).lastRefresh = none := by
    simp [sessionInit, h]
  have hexp : check_token_expiry (sessionInit landing t) = true := by
    unfold check_token_expiry
    rw [hlr]
  refine ⟨hlr, ?_, ?_⟩ <;> simp [make_request, hexp, hok]

/-- Witness for `sessionInit_no_token`. -/
theorem sessionInit_no_token_witness :
    (sessionInit none 0).lastRefresh = none ∧
    (make_request respTimeout refNever 3 (sessionInit none 0)).result
      = Except.ok none ∧
    (make_request respTimeout refNever 3 (sessionInit none 0)).requestsSent
      = 0 :=
  sessionInit_no_token none 0 respTimeout refNever 3 rfl rfl

/-- C9 counterexample: the provinces fetch carries no form fields, yet
the request issued is a POST (the method comes from `make_request`'s
`method` argument, which `get_provinces` leaves at the default
`'POST'`), not a GET. -/
theorem provincesRequest_cex :
    provincesRequest.formData = none ∧
    provincesRequest.method = HttpMethod.post := by
  decide

/-- C9 amended: all four level fetches are form-encoded POSTs to
`base_url/endpoint` with a 15-second timeout — the provinces request is a
POST with no form body rather than a GET — with the method selected by
the `method` argument (always left at the default `'POST'`), and the CSRF
token is carried in the `X-CSRF-TOKEN` session header installed at
refresh time. -/
theorem request_specs :
    provincesRequest
      = { method := HttpMethod.post, url := base_url ++ "/provinsi"
          formData := none, timeout := 15 } ∧
    (∀ p, citiesRequest p
      = { method := HttpMethod.post, url := base_url ++ "/kabupaten"
          formData := some [("kdprop", p)], timeout := 15 }) ∧
    (∀ p c, districtsRequest p c
      = { method := HttpMethod.post, url := base_url ++ "/kecamatan"
          formData := some [("kdprop", p), ("kdkab", c)], timeout := 15 }) ∧
    (∀ p c d, villagesRequest p c d
      = { method := HttpMethod.post, url := base_url ++ "/desa"
          formData := some [("kdprop", p), ("kdkab", c), ("kdkec", d)]
          timeout := 15 }) ∧
    (∀ tok, (sessionHeaders tok).lookup "X-CSRF-TOKEN" = some tok) := by
  refine ⟨by decide, fun p => ?_, fun p c => ?_, fun p c d => ?_, fun tok => ?_⟩ <;>
    simp [citiesRequest, districtsRequest, villagesRequest, buildRequest,
      sessionHeaders, List.lookup, show strUpper "POST" = "POST" by decide,
      show base_url ++ "/" ++ "kabupaten" = base_url ++ "/kabupaten" by decide,
      show base_url ++ "/" ++ "kecamatan" = base_url ++ "/kecamatan" by decide,
      show base_url ++ "/" ++ "desa" = base_url ++ "/desa" by decide]

/-- C3 counterexample: on `envC3` the crawl returns a document whose
cities counter is 1 although the hierarchy contains no city node (the
city's districts fetch failed after the counter was already bumped), so
the per-level counters do not all match the nodes present. -/
theorem scrape_all_counts_cex :
    scrape_all envC3 = Except.ok docC3 ∧ ¬ countsMatch docC3 := by
  decide

/-- When every response is a non-200 status, the retry loop exhausts its
attempts and returns `None` without raising. -/
theorem requestLoop_non200 (resp : Nat → HttpResp) (refreshOk : Nat → Bool)
    (h : ∀ i, nonTransportFail (resp i)) :
    ∀ rem attempt s rc sent se fse,
      (requestLoop resp refreshOk rem attempt s rc sent se fse).result
        = Except.ok none := by
  intro rem
  induction rem with
  | zero => intro attempt s rc sent se fse; rfl
  | succ n ih =>
    intro attempt s rc sent se fse
    obtain ⟨c, b, hr, hc⟩ := h attempt
    simp only [requestLoop, hr]
    rw [if_neg hc]
    by_cases h419 : c = 419
    · rw [if_pos h419]
      by_cases hok : refreshOk rc = true
      · rw [if_pos hok]; exact ih _ _ _ _ _ _
      · rw [if_neg hok]; exact ih _ _ _ _ _ _
    · rw [if_neg h419]
      by_cases h429 : c = 429
      · rw [if_pos h429]; exact ih _ _ _ _ _ _
      · rw [if_neg h429]; exact ih _ _ _ _ _ _

/-- When no response up to the next-to-last attempt is a 200 and the last
attempt's response is a transport failure, the loop re-raises: the
`except` handlers re-raise on `attempt == retries - 1`. -/
theorem requestLoop_transport_last (resp : Nat → HttpResp) (refreshOk : Nat → Bool) :
    ∀ n attempt s rc sent se fse,
      (∀ i, attempt ≤ i → i < attempt + n → notSuccess (resp i)) →
      isTransport (resp (attempt + n)) →
      (requestLoop resp refreshOk (n + 1) attempt s rc sent se fse).result
        = Except.error () := by
  intro n
  induction n with
  | zero =>
    intro attempt s rc sent se fse _ htr
    rcases htr with ht | ht <;>
      simp only [Nat.add_zero] at ht <;>
      simp [requestLoop, ht]
  | succ n ih =>
    intro attempt s rc sent se fse hwin htr
    have hns : notSuccess (resp attempt) := hwin attempt (Nat.le_refl _) (by omega)
    have hwin' : ∀ i, attempt + 1 ≤ i → i < (attempt + 1) + n → notSuccess (resp i) := by
      intro i h1 h2; exact hwin i (by omega) (by omega)
    have htr' : isTransport (resp ((attempt + 1) + n)) := by
      have : (attempt + 1) + n = attempt + (n + 1) := by omega
      rw [this]; exact htr
    cases hr : resp attempt with
    | html c b =>
      have hc : c ≠ 200 := by
        intro hcc; exact hns b (by rw [hr, hcc])
      simp only [requestLoop, hr]
      rw [if_neg hc]
      by_cases h419 : c = 419
      · rw [if_pos h419]
        by_cases hok : refreshOk rc = true
        · rw [if_pos hok]; exact ih _ _ _ _ _ _ hwin' htr'
        · rw [if_neg hok]; exact ih _ _ _ _ _ _ hwin' htr'
      · rw [if_neg h419]
        by_cases h429 : c = 429
        · rw [if_pos h429]; exact ih _ _ _ _ _ _ hwin' htr'
        · rw [if_neg h429]; exact ih _ _ _ _ _ _ hwin' htr'
    | timeoutExn =>
      simp only [requestLoop, hr]
      rw [if_neg (Nat.succ_ne_zero n)]
      exact ih _ _ _ _ _ _ hwin' htr'
    | connExn =>
      simp only [requestLoop, hr]
      rw [if_neg (Nat.succ_ne_zero n)]
      exact ih _ _ _ _ _ _ hwin' htr'

/-- When every response is a 419 and every refresh succeeds, the loop
refreshes once per attempt — each 419 consumes one slot of the attempt
budget — and exhausts to `None`. -/
theorem requestLoop_all419 (resp : Nat → HttpResp) (refreshOk : Nat → Bool)
    (h419 : ∀ i, ∃ b, resp i = HttpResp.html 419 b)
    (hok : ∀ j, refreshOk j = true) :
    ∀ rem attempt s rc sent se fse,
      (requestLoop resp refreshOk rem attempt s rc sent se fse).result
          = Except.ok none ∧
      (requestLoop resp refreshOk rem attempt s rc sent se fse).refreshes
          = rc + rem ∧
      (requestLoop resp refreshOk rem attempt s rc sent se fse).requestsSent
          = sent + rem := by
  intro rem
  induction rem with
  | zero => intro attempt s rc sent se fse; exact ⟨rfl, rfl, rfl⟩
  | succ n ih =>
    intro attempt s rc sent se fse
    obtain ⟨b, hr⟩ := h419 attempt
    simp only [requestLoop, hr, hok, reduceIte]
    rw [if_neg (show ¬((419 : Nat) = 200) by decide)]
    refine ⟨(ih _ _ _ _ _ _).1, ?_, ?_⟩
    · rw [(ih _ _ _ _ _ _).2.1]; omega
    · rw [(ih _ _ _ _ _ _).2.2]; omega

/-- Once the expiry status of the first sent request is recorded, later
iterations do not change it. -/
theorem requestLoop_fse_some (resp : Nat → HttpResp) (refreshOk : Nat → Bool) :
    ∀ rem attempt s rc sent se b,
      (requestLoop resp refreshOk rem attempt s rc sent se (some b)).firstSentExpired
        = some b := by
  intro rem
  induction rem with
  | zero => intro attempt s rc sent se b; rfl
  | succ n ih =>
    intro attempt s rc sent se b
    cases hr : resp attempt with
    | html c bd =>
      simp only [requestLoop, hr]
      by_cases h200 : c = 200
      · rw [if_pos h200]
      · rw [if_neg h200]
        by_cases h419 : c = 419
        · rw [if_pos h419]
          by_cases hok2 : refreshOk rc = true
          · rw [if_pos hok2]; exact ih _ _ _ _ _ _
          · rw [if_neg hok2]; exact ih _ _ _ _ _ _
        · rw [if_neg h419]
          by_cases h429 : c = 429
          · rw [if_pos h429]; exact ih _ _ _ _ _ _
          · rw [if_neg h429]; exact ih _ _ _ _ _ _
    | timeoutExn =>
      simp only [requestLoop, hr]
      by_cases hn : n = 0
      · rw [if_pos hn]
      · rw [if_neg hn]; exact ih _ _ _ _ _ _
    | connExn =>
      simp only [requestLoop, hr]
      by_cases hn : n = 0
      · rw [if_pos hn]
      · rw [if_neg hn]; exact ih _ _ _ _ _ _

/-- If the loop starts with a non-expired token, the first request it
sends is not sent with an expired token. -/
theorem requestLoop_fse_not_expired (resp : Nat → HttpResp) (refreshOk : Nat → Bool)
    (rem attempt : Nat) (s : SessState) (rc sent : Nat) (se : Bool)
    (h : check_token_expiry s = false) :
    (requestLoop resp refreshOk rem attempt s rc sent se none).firstSentExpired
      ≠ some true := by
  cases rem with
  | zero => simp [requestLoop]
  | succ n =>
    cases hr : resp attempt with
    | html c bd =>
      simp only [requestLoop, hr, h]
      by_cases h200 : c = 200
      · rw [if_pos h200]; simp
      · rw [if_neg h200]
        by_cases h419 : c = 419
        · rw [if_pos h419]
          by_cases hok2 : refreshOk rc = true
          · rw [if_pos hok2, requestLoop_fse_some]; simp
          · rw [if_neg hok2, requestLoop_fse_some]; simp
        · rw [if_neg h419]
          by_cases h429 : c = 429
          · rw [if_pos h429, requestLoop_fse_some]; simp
          · rw [if_neg h429, requestLoop_fse_some]; simp
    | timeoutExn =>
      simp only [requestLoop, hr, h]
      by_cases hn : n = 0
      · rw [if_pos hn]; simp
      · rw [if_neg hn, requestLoop_fse_some]; simp
    | connExn =>
      simp only [requestLoop, hr, h]
      by_cases hn : n = 0
      · rw [if_pos hn]; simp
      · rw [if_neg hn, requestLoop_fse_some]; simp

/-- C4 amended: a 419 response triggers a token refresh and then the next
loop iteration, consuming one slot of the attempt budget like any failed
attempt; a refresh happens on every 419 (not at most once per call), so a
call whose attempts all return 419 with refresh succeeding performs
`retries` refreshes, sends `retries` requests and returns `None`. -/
theorem make_request_419_consumes (resp : Nat → HttpResp) (refreshOk : Nat → Bool)
    (retries : Nat) (s : SessState)
    (h419 : ∀ i, ∃ b, resp i = HttpResp.html 419 b)
    (hok : ∀ j, refreshOk j = true)
    (hfresh : check_token_expiry s = false) :
    (make_request resp refreshOk retries s).result = Except.ok none ∧
    (make_request resp refreshOk retries s).refreshes = retries ∧
    (make_request resp refreshOk retries s).requestsSent = retries := by
  simp only [make_request, hfresh, Bool.false_eq_true, if_false]
  obtain ⟨h1, h2, h3⟩ := requestLoop_all419 resp refreshOk h419 hok retries 0 s 0 0 false none
  exact ⟨h1, by rw [h2]; omega, by rw [h3]; omega⟩

/-- Witness for `make_request_419_consumes`. -/
theorem make_request_419_consumes_witness :
    (make_request resp419 refAlways 3 sFresh).result = Except.ok none ∧
    (make_request resp419 refAlways 3 sFresh).refreshes = 3 ∧
    (make_request resp419 refAlways 3 sFresh).requestsSent = 3 :=
  make_request_419_consumes resp419 refAlways 3 sFresh
    (fun _ => ⟨"expired", rfl⟩) (fun _ => rfl) (by decide)

/-- C5: after `retries` consecutive non-transport failures (non-200
statuses) `make_request` returns `None` without raising, while a
transport-level timeout or connection error on the final attempt
propagates as an exception. -/
theorem make_request_retry_exhaustion (resp : Nat → HttpResp) (refreshOk : Nat → Bool)
    (retries : Nat) (s : SessState) :
    ((∀ i, nonTransportFail (resp i)) →
      (make_request resp refreshOk retries s).result = Except.ok none) ∧
    (0 < retries →
      (∀ i, i < retries - 1 → notSuccess (resp i)) →
      isTransport (resp (retries - 1)) →
      (check_token_expiry s = false ∨ refreshOk 0 = true) →
      (make_request resp refreshOk retries s).result = Except.error ()) := by
  constructor
  · intro h
    unfold make_request
    by_cases hexp : check_token_expiry s = true
    · rw [if_pos hexp]
      by_cases hok : refreshOk 0 = true
      · rw [if_pos hok]
        exact requestLoop_non200 resp refreshOk h retries 0 _ 1 0 false none
      · rw [if_neg hok]
    · rw [if_neg hexp]
      exact requestLoop_non200 resp refreshOk h retries 0 s 0 0 false none
  · intro hpos hwin htr hpre
    obtain ⟨n, rfl⟩ : ∃ n, retries = n + 1 := ⟨retries - 1, by omega⟩
    have hwin0 : ∀ i, 0 ≤ i → i < 0 + n → notSuccess (resp i) := by
      intro i _ h2; exact hwin i (by omega)
    have htr0 : isTransport (resp (0 + n)) := by
      have he : 0 + n = (n + 1) - 1 := by omega
      rw [he]; exact htr
    unfold make_request
    rcases hpre with hf | hok
    · rw [hf, if_neg (by decide : ¬(false = true))]
      exact requestLoop_transport_last resp refreshOk n 0 s 0 0 false none hwin0 htr0
    · by_cases hexp : check_token_expiry s = true
      · rw [if_pos hexp, if_pos hok]
        exact requestLoop_transport_last resp refreshOk n 0 _ 1 0 false none hwin0 htr0
      · rw [if_neg hexp]
        exact requestLoop_transport_last resp refreshOk n 0 s 0 0 false none hwin0 htr0

/-- Witness for `make_request_retry_exhaustion`: three 429s exhaust to
`None`; a timeout on every attempt raises on the last one. -/
theorem make_request_retry_exhaustion_witness :
    (make_request resp429 refNever 3 sFresh).result = Except.ok none ∧
    (make_request respTimeout refNever 3 sFresh).result = Except.error () := by
  constructor
  · exact (make_request_retry_exhaustion resp429 refNever 3 sFresh).1
      (fun _ => ⟨429, "busy", rfl, by decide⟩)
  · exact (make_request_retry_exhaustion respTimeout refNever 3 sFresh).2
      (by decide) (fun _ _ _ h => HttpResp.noConfusion h) (Or.inl rfl)
      (Or.inl (by decide))

/-- C6 amended: the expiry check runs once at the start of each
`make_request` call — if the token is expired and the refresh fails, the
call returns `None` without sending any request, and when the call does
proceed its first request always carries a non-expired token — but the
check is not repeated before the retry attempts inside the loop, so a
later attempt can be sent with a token that expired during an in-call
sleep. -/
theorem make_request_expiry_precheck (resp : Nat → HttpResp) (refreshOk : Nat → Bool)
    (retries : Nat) (s : SessState) :
    (check_token_expiry s = true → refreshOk 0 = false →
      (make_request resp refreshOk retries s).result = Except.ok none ∧
      (make_request resp refreshOk retries s).requestsSent = 0) ∧
    ((check_token_expiry s = false ∨ refreshOk 0 = true) →
      (make_request resp refreshOk retries s).firstSentExpired ≠ some true) := by
  constructor
  · intro hexp hok
    unfold make_request
    rw [if_pos hexp, if_neg (by simp [hok])]
    exact ⟨rfl, rfl⟩
  · intro hpre
    unfold make_request
    rcases hpre with hf | hok
    · rw [hf, if_neg (by decide : ¬(false = true))]
      exact requestLoop_fse_not_expired resp refreshOk retries 0 s 0 0 false hf
    · by_cases hexp : check_token_expiry s = true
      · rw [if_pos hexp, if_pos hok]
        refine requestLoop_fse_not_expired resp refreshOk retries 0 _ 1 0 false ?_
        simp [applyRefresh, check_token_expiry, token_lifetime]
      · rw [if_neg hexp]
        exact requestLoop_fse_not_expired resp refreshOk retries 0 s 0 0 false
          (Bool.eq_false_iff.mpr hexp)

/-- Witness for `make_request_expiry_precheck`. -/
theorem make_request_expiry_precheck_witness :
    ((make_request respTimeout refNever 3 sNoToken).result = Except.ok none ∧
     (make_request respTimeout refNever 3 sNoToken).requestsSent = 0) ∧
    (make_request respRateThenOk refNever 3 sNearExpiry).firstSentExpired
      ≠ some true := by
  constructor
  · exact (make_request_expiry_precheck respTimeout refNever 3 sNoToken).1 rfl rfl
  · exact (make_request_expiry_precheck respRateThenOk refNever 3 sNearExpiry).2
      (Or.inl (by decide))

/-- The district nodes kept under a city are exactly the fetched
districts whose villages fetch succeeded, in order. -/
theorem crawlDistricts_codes (env : FetchEnv) (pc cc : String) :
    ∀ ds, ((crawlDistricts env pc cc ds).1).map DistrictNode.code
      = (ds.filter (fun dd => (env.villages pc cc dd.1).isSome)).map Prod.fst := by
  intro ds
  induction ds with
  | nil => rfl
  | cons d rest ih =>
    cases hv : env.villages pc cc d.1 with
    | none => simp [crawlDistricts, hv, List.filter_cons, ih]
    | some vs => simp [crawlDistricts, hv, List.filter_cons, ih]

/-- The city nodes kept under a province are exactly the fetched cities
whose districts fetch succeeded, in order. -/
theorem crawlCities_codes (env : FetchEnv) (pc : String) :
    ∀ cs, ((crawlCities env pc cs).1).map CityNode.code
      = (cs.filter (fun c => (env.districts pc c.1).isSome)).map Prod.fst := by
  intro cs
  induction cs with
  | nil => rfl
  | cons c rest ih =>
    cases hd : env.districts pc c.1 with
    | none => simp [crawlCities, hd, List.filter_cons, ih]
    | some ds => simp [crawlCities, hd, List.filter_cons, ih]

/-- The province nodes in the output are exactly the fetched provinces
whose cities fetch succeeded, in order. -/
theorem crawlProvinces_codes (env : FetchEnv) :
    ∀ ps, ((crawlProvinces env ps).1).map ProvinceNode.code
      = (ps.filter (fun p => (env.cities p.1).isSome)).map Prod.fst := by
  intro ps
  induction ps with
  | nil => rfl
  | cons p rest ih =>
    cases hc : env.cities p.1 with
    | none => simp [crawlProvinces, hc, List.filter_cons, ih]
    | some cs => simp [crawlProvinces, hc, List.filter_cons, ih]

/-- C2: a failing provinces fetch aborts the whole run with the exception
propagating; once the provinces fetch succeeds the run always completes,
and a failing cities/districts/villages fetch drops exactly that subtree
— at every level the surviving siblings are the fetched entries whose own
child fetch succeeded, in order. -/
theorem scrape_all_failure_policy (env : FetchEnv) :
    (env.provinces = none → scrape_all env = Except.error ()) ∧
    (∀ ps, env.provinces = some ps → ∃ d, scrape_all env = Except.ok d) ∧
    (∀ ps d, env.provinces = some ps → scrape_all env = Except.ok d →
      d.provinces.map ProvinceNode.code
        = (ps.filter (fun p => (env.cities p.1).isSome)).map Prod.fst) ∧
    (∀ pc cs, ((crawlCities env pc cs).1).map CityNode.code
        = (cs.filter (fun c => (env.districts pc c.1).isSome)).map Prod.fst) ∧
    (∀ pc cc ds, ((crawlDistricts env pc cc ds).1).map DistrictNode.code
        = (ds.filter (fun dd => (env.villages pc cc dd.1).isSome)).map Prod.fst) := by
  refine ⟨?_, ?_, ?_, crawlCities_codes env, crawlDistricts_codes env⟩
  · intro h; simp [scrape_all, h]
  · intro ps h
    exact ⟨⟨⟨ps.length, (crawlProvinces env ps).2.1, (crawlProvinces env ps).2.2.1,
      (crawlProvinces env ps).2.2.2⟩, (crawlProvinces env ps).1⟩,
      by simp [scrape_all, h]⟩
  · intro ps d h hok
    simp only [scrape_all, h, Except.ok.injEq] at hok
    rw [← hok]
    exact crawlProvinces_codes env ps

/-- Witness for `scrape_all_failure_policy`. -/
theorem scrape_all_failure_policy_witness :
    scrape_all envNone = Except.error () ∧
    (∃ d, scrape_all envC1 = Except.ok d) ∧
    docC1.provinces.map ProvinceNode.code
      = (([("11", "Aceh")]).filter
          (fun p => (envC1.cities p.1).isSome)).map Prod.fst :=
  ⟨(scrape_all_failure_policy envNone).1 rfl,
   (scrape_all_failure_policy envC1).2.1 [("11", "Aceh")] rfl,
   (scrape_all_failure_policy envC1).2.2.1 [("11", "Aceh")] docC1 rfl (by decide)⟩

/-- `total_villages` contributions equal the village nodes kept: villages
are only counted for districts whose node is appended. -/
theorem crawlDistricts_villages_sum (env : FetchEnv) (pc cc : String) :
    ∀ ds, (crawlDistricts env pc cc ds).2
      = (((crawlDistricts env pc cc ds).1).map
          (fun n => n.villages.length)).sum := by
  intro ds
  induction ds with
  | nil => rfl
  | cons d rest ih =>
    cases hv : env.villages pc cc d.1 with
    | none => simp [crawlDistricts, hv, ih]
    | some vs => simp [crawlDistricts, hv, ih]

/-- No more district nodes are kept than districts were fetched. -/
theorem crawlDistricts_length_le (env : FetchEnv) (pc cc : String) :
    ∀ ds, ((crawlDistricts env pc cc ds).1).length ≤ ds.length := by
  intro ds
  induction ds with
  | nil => exact Nat.le_refl 0
  | cons d rest ih =>
    cases hv : env.villages pc cc d.1 with
    | none => simp only [crawlDistricts, hv]; exact Nat.le_succ_of_le ih
    | some vs => simp only [crawlDistricts, hv, List.length_cons]; omega

/-- Village totals accumulated over a province's cities equal the village
nodes kept under the surviving city nodes. -/
theorem crawlCities_villages_sum (env : FetchEnv) (pc : String) :
    ∀ cs, (crawlCities env pc cs).2.2
      = (((crawlCities env pc cs).1).map
          (fun c => (c.districts.map (fun n => n.villages.length)).sum)).sum := by
  intro cs
  induction cs with
  | nil => rfl
  | cons c rest ih =>
    cases hd : env.districts pc c.1 with
    | none => simp [crawlCities, hd, ih]
    | some ds => simp [crawlCities, hd, ih, crawlDistricts_villages_sum]

/-- The district nodes kept under a province's cities are at most the
districts counted into `total_districts`. -/
theorem crawlCities_districts_le (env : FetchEnv) (pc : String) :
    ∀ cs, (((crawlCities env pc cs).1).map (fun c => c.districts.length)).sum
      ≤ (crawlCities env pc cs).2.1 := by
  intro cs
  induction cs with
  | nil => exact Nat.le_refl 0
  | cons c rest ih =>
    cases hd : env.districts pc c.1 with
    | none => simp only [crawlCities, hd]; exact ih
    | some ds =>
      have h1 := crawlDistricts_length_le env pc c.1 ds
      simp only [crawlCities, hd, List.map_cons, List.sum_cons]
      omega

/-- Village totals accumulated over all provinces equal the village nodes
kept in the hierarchy. -/
theorem crawlProvinces_villages_sum (env : FetchEnv) :
    ∀ ps, (crawlProvinces env ps).2.2.2
      = (((crawlProvinces env ps).1).map
          (fun p => (p.cities.map
            (fun c => (c.districts.map (fun n => n.villages.length)).sum)).sum)).sum := by
  intro ps
  induction ps with
  | nil => rfl
  | cons p rest ih =>
    cases hc : env.cities p.1 with
    | none => simp [crawlProvinces, hc, ih]
    | some cs => simp [crawlProvinces, hc, ih, crawlCities_villages_sum]

/-- The district nodes kept in the hierarchy are at most the accumulated
`total_districts` counter. -/
theorem crawlProvinces_districts_le (env : FetchEnv) :
    ∀ ps, (((crawlProvinces env ps).1).map
        (fun p => (p.cities.map (fun c => c.districts.length)).sum)).sum
      ≤ (crawlProvinces env ps).2.2.1 := by
  intro ps
  induction ps with
  | nil => exact Nat.le_refl 0
  | cons p rest ih =>
    cases hc : env.cities p.1 with
    | none => simp only [crawlProvinces, hc]; exact ih
    | some cs =>
      have h1 := crawlCities_districts_le env p.1 cs
      simp only [crawlProvinces, hc, List.map_cons, List.sum_cons]
      omega

/-- The city nodes kept in the hierarchy are at most the accumulated
`total_cities/regencies` counter. -/
theorem crawlProvinces_cities_le (env : FetchEnv) :
    ∀ ps, (((crawlProvinces env ps).1).map (fun p => p.cities.length)).sum
      ≤ (crawlProvinces env ps).2.1 := by
  intro ps
  induction ps with
  | nil => exact Nat.le_refl 0
  | cons p rest ih =>
    cases hc : env.cities p.1 with
    | none => simp only [crawlProvinces, hc]; exact ih
    | some cs =>
      have h1 := crawlCities_codes env p.1 cs
      have h2 : ((crawlCities env p.1 cs).1).length ≤ cs.length := by
        have := congrArg List.length h1
        simp only [List.length_map] at this
        rw [this]
        exact List.length_filter_le _ _
      simp only [crawlProvinces, hc, List.map_cons, List.sum_cons]
      omega

/-- C3 amended: `total_villages` always equals the number of village
nodes present in the hierarchy, but the cities and districts counters
count entries at discovery time: a city or district whose own child fetch
later fails stays counted while its node is dropped, so those counters
only bound the node counts from above. -/
theorem scrape_all_counters (env : FetchEnv) (d : ResultDocument)
    (h : scrape_all env = Except.ok d) :
    d.statistics.total_villages = villageNodeCount d ∧
    cityNodeCount d ≤ d.statistics.total_cities_regencies ∧
    districtNodeCount d ≤ d.statistics.total_districts := by
  cases hp : env.provinces with
  | none => rw [scrape_all, hp] at h; cases h
  | some ps =>
    simp only [scrape_all, hp, Except.ok.injEq] at h
    rw [← h]
    exact ⟨crawlProvinces_villages_sum env ps,
      crawlProvinces_cities_le env ps,
      crawlProvinces_districts_le env ps⟩

/-- Witness for `scrape_all_counters`. -/
theorem scrape_all_counters_witness :
    docC3.statistics.total_villages = villageNodeCount docC3 ∧
    cityNodeCount docC3 ≤ docC3.statistics.total_cities_regencies ∧
    districtNodeCount docC3 ≤ docC3.statistics.total_districts :=
  scrape_all_counters envC3 docC3 (by decide)

/-- Keys present after a dict insert: the inserted key, or a key that was
already present. -/
theorem dictInsert_keys (m : List (String × String)) (k v : String) :
    ∀ kv, kv ∈ dictInsert m k v → kv.1 = k ∨ ∃ v0, (kv.1, v0) ∈ m := by
  intro kv hmem
  unfold dictInsert at hmem
  split at hmem
  · obtain ⟨kv0, hkv0, heq⟩ := List.mem_map.mp hmem
    by_cases hk : kv0.1 = k
    · rw [if_pos hk] at heq
      left; rw [← heq]
    · rw [if_neg hk] at heq
      right
      refine ⟨kv0.2, ?_⟩
      rw [← heq]
      simpa using hkv0
  · rcases List.mem_append.mp hmem with hin | hone
    · right; exact ⟨kv.2, hin⟩
    · left
      have : kv = (k, v) := List.mem_singleton.mp hone
      rw [this]

/-- Every key of the accumulated map after the `parse_options` loop comes
either from the incoming accumulator or from an option element whose
value passed the filter. -/
theorem parseAux_keys :
    ∀ (opts : List (Option String × String)) (m : List (String × String)) kv,
      kv ∈ parseAux m opts →
      (∃ v0, (kv.1, v0) ∈ m) ∨
      (∃ t, (some kv.1, t) ∈ opts ∧ kv.1 ≠ "" ∧ kv.1 ≠ "0" ∧
        startswith kv.1 "===" = false) := by
  intro opts
  induction opts with
  | nil =>
    intro m kv h
    left
    exact ⟨kv.2, by simpa [parseAux] using h⟩
  | cons o rest ih =>
    intro m kv h
    have h2 := ih (parseStep m o) kv (by simpa [parseAux] using h)
    rcases h2 with ⟨v0, hm⟩ | ⟨t, hmem, hc1, hc2, hc3⟩
    · obtain ⟨ov, ot⟩ := o
      cases ov with
      | none =>
        simp only [parseStep] at hm
        exact Or.inl ⟨v0, hm⟩
      | some v =>
        simp only [parseStep] at hm
        by_cases hcond : v ≠ "" ∧ v ≠ "0" ∧ startswith v "===" = false
        · rw [if_pos hcond] at hm
          rcases dictInsert_keys m v (pyStrip ot) (kv.1, v0) hm with hk | ⟨v1, hv1⟩
          · have hk2 : kv.1 = v := hk
            right
            refine ⟨ot, ?_, ?_, ?_, ?_⟩
            · rw [hk2]; exact List.mem_cons_self _ _
            · rw [hk2]; exact hcond.1
            · rw [hk2]; exact hcond.2.1
            · rw [hk2]; exact hcond.2.2
          · exact Or.inl ⟨v1, hv1⟩
        · rw [if_neg hcond] at hm
          exact Or.inl ⟨v0, hm⟩
    · exact Or.inr ⟨t, List.mem_cons_of_mem o hmem, hc1, hc2, hc3⟩

/-- C8: no entry emitted by `parse_options` has code `"0"` or a code
starting with `"==="` — placeholder and header options are excluded. -/
theorem parse_options_no_placeholder (opts : List (Option String × String))
    (k v : String) (h : (k, v) ∈ parse_options opts) :
    k ≠ "0" ∧ startswith k "===" = false := by
  rcases parseAux_keys opts [] (k, v) h with ⟨v0, hm⟩ | ⟨t, _, _, h0, hs⟩
  · cases hm
  · exact ⟨h0, hs⟩

/-- Witness for `parse_options_no_placeholder`. -/
theorem parse_options_no_placeholder_witness :
    ("11", "Aceh") ∈ parse_options
      [(some "0", "-- Pilih --"), (some "=== Provinsi ===", "hdr"),
       (some "11", " Aceh ")] ∧
    "11" ≠ "0" ∧ startswith "11" "===" = false := by
  have hmem : ("11", "Aceh") ∈ parse_options
      [(some "0", "-- Pilih --"), (some "=== Provinsi ===", "hdr"),
       (some "11", " Aceh ")] := by
    rw [show parse_options
      [(some "0", "-- Pilih --"), (some "=== Provinsi ===", "hdr"),
       (some "11", " Aceh ")] = [("11", "Aceh")] by decide]
    exact List.mem_singleton.mpr rfl
  exact ⟨hmem, parse_options_no_placeholder _ "11" "Aceh" hmem⟩

/-- C10: every entry emitted by `parse_options` has a nonempty code that
was the `value` attribute of some option element — options without a
value attribute, or with an empty one, produce no entry. -/
theorem parse_options_requires_value (opts : List (Option String × String))
    (k v : String) (h : (k, v) ∈ parse_options opts) :
    k ≠ "" ∧ ∃ t, (some k, t) ∈ opts := by
  rcases parseAux_keys opts [] (k, v) h with ⟨v0, hm⟩ | ⟨t, hmem, hne, _, _⟩
  · cases hm
  · exact ⟨hne, t, hmem⟩

/-- Witness for `parse_options_requires_value`. -/
theorem parse_options_requires_value_witness :
    ("12", "Sumatera Utara") ∈ parse_options
      [(none, "no value"), (some "", "empty"), (some "12", "Sumatera Utara")] ∧
    "12" ≠ "" ∧ (∃ t, (some "12", t) ∈
      [((none : Option String), "no value"), (some "", "empty"),
       (some "12", "Sumatera Utara")]) := by
  have hmem : ("12", "Sumatera Utara") ∈ parse_options
      [(none, "no value"), (some "", "empty"), (some "12", "Sumatera Utara")] := by
    rw [show parse_options
      [(none, "no value"), (some "", "empty"), (some "12", "Sumatera Utara")]
        = [("12", "Sumatera Utara")] by decide]
    exact List.mem_singleton.mpr rfl
  exact ⟨hmem, parse_options_requires_value _ "12" "Sumatera Utara" hmem⟩
